import Mathlib

/-!
Verification of `src/utils/udp_sender.py` against its specification.

The Python program is embedded shallowly:

* exceptions become an explicit `PyExc` type; a Python call that may raise
  is a Lean function returning `Except PyExc _` or `PyResult`;
* the observable world (datagrams sent, stdout, stderr, socket counters) is
  an explicit `WorldState` threaded through the functions;
* the outcomes of the external socket operations (`socket.socket`,
  `sock.sendto`) are resolved by an `Env` parameter, so that theorems can
  quantify over every possible behaviour of the operating system.
-/

namespace UdpSender

/-- Python exception values that the program under verification can
encounter: `OSError` from socket creation or the send attempt,
`ValueError` from `int(port)`, and `OverflowError` from an out-of-range
port number inside `sendto`.  All three derive from `Exception` in Python,
so all are caught by `except Exception`. -/
inductive PyExc where
  | oserror (msg : String)
  | valueError (msg : String)
  | overflowError (msg : String)
deriving DecidableEq, Repr

/-- `str(e)` for the exceptions above: the message that `print(f"Error: {e}")`
interpolates. -/
def excMsg : PyExc → String
  | PyExc.oserror m => m
  | PyExc.valueError m => m
  | PyExc.overflowError m => m

/-- One UDP datagram as handed to `sock.sendto(payload, (host, port))`. -/
structure Datagram where
  host : String
  port : Int
  payload : List UInt8
deriving DecidableEq, Repr

/-- The observable state of the world while the program runs: the datagrams
transmitted so far, the lines printed to standard output and to the error
stream, the number of sockets currently open, and the number of sockets
ever created. -/
structure WorldState where
  sent : List Datagram
  stdoutLines : List String
  stderrLines : List String
  socketsOpen : Nat
  socketsCreated : Nat
deriving DecidableEq, Repr

/-- The world at process start: nothing sent, nothing printed, no socket. -/
def initWorld : WorldState :=
  { sent := [], stdoutLines := [], stderrLines := [], socketsOpen := 0,
    socketsCreated := 0 }

/-- Resolution of the nondeterminism of the operating system:
`createRaises` is the exception `socket.socket(AF_INET, SOCK_DGRAM)` raises
(`none` when creation succeeds), and `sendRaises host port payload` is the
exception the resolution-and-send step of `sock.sendto` raises for an
in-range port (`none` when the send succeeds). -/
structure Env where
  createRaises : Option PyExc
  sendRaises : String → Int → List UInt8 → Option PyExc

/-- `message.encode('utf-8')`: the UTF-8 bytes of a string, built from the
core per-character encoder. -/
def utf8Encode (s : String) : List UInt8 :=
  s.data.flatMap String.utf8EncodeChar

/-- The numeric value of a decimal digit character, `none` otherwise. -/
def digitVal (c : Char) : Option Nat :=
  if '0' ≤ c ∧ c ≤ '9' then some (c.toNat - '0'.toNat) else none

/-- Reads a nonempty all-digit character list as a natural number. -/
def parseDigitsAux : List Char → Nat → Option Nat
  | [], acc => some acc
  | c :: cs, acc =>
    match digitVal c with
    | some d => parseDigitsAux cs (acc * 10 + d)
    | none => none

/-- Reads a nonempty all-digit character list as a natural number;
`none` on the empty list or on any non-digit character. -/
def parseDigits : List Char → Option Nat
  | [] => none
  | cs => parseDigitsAux cs 0

/-- Is `c` ASCII whitespace stripped by Python's `int()`? -/
def isPySpace (c : Char) : Bool :=
  c == ' ' || c == '\t' || c == '\n' || c == '\r'

/-- Model of Python's `int(port)` for base 10: optional surrounding
whitespace, an optional sign, then one or more decimal digits; `none` when
the string is not of that shape (then `int()` raises `ValueError`).
Digit-group underscores, accepted by CPython, are not modelled; no claim
depends on them. -/
def pyIntParse (s : String) : Option Int :=
  let cs := s.data.dropWhile isPySpace
  let cs := (cs.reverse.dropWhile isPySpace).reverse
  match cs with
  | '-' :: rest => (parseDigits rest).map (fun n => -(n : Int))
  | '+' :: rest => (parseDigits rest).map (fun n => (n : Int))
  | _ => (parseDigits cs).map (fun n => (n : Int))

/-- The outcome of a Python call: a returned value, or a propagated
(uncaught) exception. -/
inductive PyResult (α : Type) where
  | ret (a : α)
  | raise (e : PyExc)
deriving DecidableEq, Repr

/-- `sock.sendto(payload, (host, port))`: CPython first checks the port
range (raising `OverflowError "getsockaddrarg: port must be 0-65535"`
outside `[0, 65535]`), then resolves and sends, which may raise an
`Env`-determined exception; on success exactly one datagram is appended to
the transcript. -/
def sendtoModel (env : Env) (st : WorldState) (host : String) (pt : Int)
    (payload : List UInt8) : Except PyExc WorldState :=
  if pt < 0 ∨ 65535 < pt then
    Except.error (PyExc.overflowError "getsockaddrarg: port must be 0-65535")
  else
    match env.sendRaises host pt payload with
    | some e => Except.error e
    | none => Except.ok { st with sent := st.sent ++ [⟨host, pt, payload⟩] }

/-- The body of the `try:` block of `send_udp`:
`sock.sendto(message.encode('utf-8'), (host, int(port)))`.  Evaluating
`int(port)` may raise `ValueError`; the send itself may raise. -/
def tryBody (env : Env) (st : WorldState) (host port message : String) :
    Except PyExc WorldState :=
  match pyIntParse port with
  | none =>
    Except.error (PyExc.valueError
      ("invalid literal for int() with base 10: '" ++ port ++ "'"))
  | some pt => sendtoModel env st host pt (utf8Encode message)

/-- Embedding of `send_udp(host, port, message)`:

```python
def send_udp(host, port, message):
    sock = socket.socket(socket.AF_INET, socket.SOCK_DGRAM)
    try:
        sock.sendto(message.encode('utf-8'), (host, int(port)))
        return True
    except Exception as e:
        print(f"Error: {e}", file=sys.stderr)
        return False
    finally:
        sock.close()
```

Note that `socket.socket(...)` sits on the line before `try:`: an
exception raised there propagates out of `send_udp`, with no socket
created.  When creation succeeds, the socket-open count rises by one, the
`try` body runs, any exception it raises is caught by `except Exception`
(all modelled exceptions derive from `Exception`), printed to the error
stream and turned into `False`, and the `finally` clause closes the
socket on every path. -/
def send_udp (env : Env) (st : WorldState) (host port message : String) :
    PyResult Bool × WorldState :=
  match env.createRaises with
  | some e => (PyResult.raise e, st)
  | none =>
    let stOpen : WorldState :=
      { st with socketsOpen := st.socketsOpen + 1,
                socketsCreated := st.socketsCreated + 1 }
    let afterTry : PyResult Bool × WorldState :=
      match tryBody env stOpen host port message with
      | Except.ok st2 => (PyResult.ret true, st2)
      | Except.error e =>
        (PyResult.ret false,
          { stOpen with
              stderrLines := stOpen.stderrLines ++ ["Error: " ++ excMsg e] })
    (afterTry.1, { afterTry.2 with socketsOpen := afterTry.2.socketsOpen - 1 })

/-- The usage line printed on a wrong argument count. -/
def usageLine : String := "Usage: python udp_sender.py HOST PORT MESSAGE"

/-- How the process terminates: an explicit `sys.exit(code)`, or a crash on
an exception that reached the top level uncaught. -/
inductive ProcOutcome where
  | exited (code : Nat)
  | crashed (e : PyExc)
deriving DecidableEq, Repr

/-- The process exit status an invoking shell observes: the code passed to
`sys.exit`, and 1 when CPython terminates on an uncaught exception. -/
def exitStatus : ProcOutcome → Nat
  | ProcOutcome.exited c => c
  | ProcOutcome.crashed _ => 1

/-- Embedding of the `if __name__ == "__main__":` block:

```python
if len(sys.argv) != 4:
    print("Usage: python udp_sender.py HOST PORT MESSAGE")
    sys.exit(1)
host = sys.argv[1]
port = sys.argv[2]
message = sys.argv[3]
success = send_udp(host, port, message)
sys.exit(0 if success else 1)
```

`argv` includes the program name at index 0, so `len(sys.argv) != 4` means
a positional-argument count other than 3.  When `send_udp` itself raises,
the interpreter prints a traceback to the error stream and the process
crashes. -/
def mainRun (env : Env) (argv : List String) : ProcOutcome × WorldState :=
  if argv.length ≠ 4 then
    (ProcOutcome.exited 1,
      { initWorld with stdoutLines := initWorld.stdoutLines ++ [usageLine] })
  else
    match send_udp env initWorld (argv.getD 1 "") (argv.getD 2 "") (argv.getD 3 "") with
    | (PyResult.ret true, st) => (ProcOutcome.exited 0, st)
    | (PyResult.ret false, st) => (ProcOutcome.exited 1, st)
    | (PyResult.raise e, st) =>
      (ProcOutcome.crashed e,
        { st with stderrLines :=
            st.stderrLines ++ ["Traceback (most recent call last): " ++ excMsg e] })

/-- An environment in which both socket creation and the send succeed. -/
def envOk : Env := ⟨none, fun _ _ _ => none⟩

/-- An environment in which `socket.socket(...)` itself raises, e.g. on
file-descriptor exhaustion. -/
def envCreateFail : Env :=
  ⟨some (PyExc.oserror "[Errno 24] Too many open files"), fun _ _ _ => none⟩

/-- An environment in which creation succeeds but every send attempt
raises, e.g. an unresolvable host. -/
def envSendFail : Env :=
  ⟨none, fun _ _ _ => some (PyExc.oserror "[Errno -2] Name or service not known")⟩

/-- When `socket.socket` raises, `send_udp` propagates the exception and
the world is untouched (no socket was created). -/
theorem send_udp_create_fail (env : Env) (st : WorldState)
    (host port message : String) (e : PyExc) (hc : env.createRaises = some e) :
    send_udp env st host port message = (PyResult.raise e, st) := by
  simp [send_udp, hc]

/-- When creation succeeds and the port string does not parse, `int(port)`
raises `ValueError`, which is caught: `send_udp` returns `False`, one error
line is printed, and the socket is created and closed again. -/
theorem send_udp_parse_fail (env : Env) (st : WorldState)
    (host port message : String)
    (hc : env.createRaises = none) (hp : pyIntParse port = none) :
    send_udp env st host port message =
      (PyResult.ret false,
        { st with socketsCreated := st.socketsCreated + 1,
                  stderrLines := st.stderrLines ++
                    ["Error: " ++ ("invalid literal for int() with base 10: '" ++ port ++ "'")] }) := by
  simp [send_udp, tryBody, hc, hp, excMsg]

/-- When creation succeeds, the port parses, but its value lies outside
`[0, 65535]`, `sendto` raises `OverflowError`, which is caught likewise. -/
theorem send_udp_range_fail (env : Env) (st : WorldState)
    (host port message : String) (pt : Int)
    (hc : env.createRaises = none) (hp : pyIntParse port = some pt)
    (hr : pt < 0 ∨ 65535 < pt) :
    send_udp env st host port message =
      (PyResult.ret false,
        { st with socketsCreated := st.socketsCreated + 1,
                  stderrLines := st.stderrLines ++
                    ["Error: getsockaddrarg: port must be 0-65535"] }) := by
  simp [send_udp, tryBody, sendtoModel, hc, hp, hr, excMsg]

/-- When creation succeeds, the port parses and is in range, but the
resolution-and-send step raises, the exception is caught: `False`, one
error line, socket closed. -/
theorem send_udp_send_fail (env : Env) (st : WorldState)
    (host port message : String) (pt : Int) (e : PyExc)
    (hc : env.createRaises = none) (hp : pyIntParse port = some pt)
    (hr : ¬ (pt < 0 ∨ 65535 < pt))
    (hs : env.sendRaises host pt (utf8Encode message) = some e) :
    send_udp env st host port message =
      (PyResult.ret false,
        { st with socketsCreated := st.socketsCreated + 1,
                  stderrLines := st.stderrLines ++ ["Error: " ++ excMsg e] }) := by
  simp [send_udp, tryBody, sendtoModel, hc, hp, hr, hs]

/-- When every step succeeds, `send_udp` returns `True` and exactly one
datagram — UTF-8 payload, parsed port — is appended to the transcript. -/
theorem send_udp_send_ok (env : Env) (st : WorldState)
    (host port message : String) (pt : Int)
    (hc : env.createRaises = none) (hp : pyIntParse port = some pt)
    (hr : ¬ (pt < 0 ∨ 65535 < pt))
    (hs : env.sendRaises host pt (utf8Encode message) = none) :
    send_udp env st host port message =
      (PyResult.ret true,
        { st with socketsCreated := st.socketsCreated + 1,
                  sent := st.sent ++ [⟨host, pt, utf8Encode message⟩] }) := by
  simp [send_udp, tryBody, sendtoModel, hc, hp, hr, hs]

/-- C5: On every execution path of `send_udp` — successful send, caught
transmission error, or any other exit — every socket created during the
call is closed before `send_udp` returns: the number of open sockets after
the call equals the number before it. -/
theorem send_udp_socket_released (env : Env) (st : WorldState)
    (host port message : String) :
    (send_udp env st host port message).2.socketsOpen = st.socketsOpen := by
  cases hc : env.createRaises with
  | some e => rw [send_udp_create_fail env st host port message e hc]
  | none =>
    cases hp : pyIntParse port with
    | none => rw [send_udp_parse_fail env st host port message hc hp]
    | some pt =>
      by_cases hr : pt < 0 ∨ 65535 < pt
      · rw [send_udp_range_fail env st host port message pt hc hp hr]
      · cases hs : env.sendRaises host pt (utf8Encode message) with
        | some e => rw [send_udp_send_fail env st host port message pt e hc hp hr hs]
        | none => rw [send_udp_send_ok env st host port message pt hc hp hr hs]

/-- C3: For every host, message and program name, and every environment in
which socket creation succeeds, a non-numeric port string makes the call
fail gracefully: the `ValueError` from `int(port)` is caught, `send_udp`
returns `False` (no exception escapes), and the process exits with
code 1. -/
theorem send_udp_nonnumeric_port_graceful (env : Env)
    (prog host port message : String)
    (hc : env.createRaises = none) (hp : pyIntParse port = none) :
    (send_udp env initWorld host port message).1 = PyResult.ret false ∧
    (mainRun env [prog, host, port, message]).1 = ProcOutcome.exited 1 := by
  have hfail := send_udp_parse_fail env initWorld host port message hc hp
  constructor
  · rw [hfail]
  · simp [mainRun, hfail]

/-- C3 witness: the spec's scenario
`send_udp("127.0.0.1", "notaport", "hi")`. -/
theorem send_udp_nonnumeric_port_graceful_witness :
    (send_udp envOk initWorld "127.0.0.1" "notaport" "hi").1 = PyResult.ret false ∧
    (mainRun envOk ["udp_sender.py", "127.0.0.1", "notaport", "hi"]).1 =
      ProcOutcome.exited 1 :=
  send_udp_nonnumeric_port_graceful envOk "udp_sender.py" "127.0.0.1" "notaport" "hi"
    rfl rfl

/-- C4: For every invocation whose argument list does not have length 4
(program name plus three positional arguments), the process exits with
code 1, prints exactly the one-line usage message to standard output,
sends nothing, and creates no socket: `send_udp` is never reached. -/
theorem mainRun_wrong_argc_usage (env : Env) (argv : List String)
    (h : argv.length ≠ 4) :
    (mainRun env argv).1 = ProcOutcome.exited 1 ∧
    (mainRun env argv).2.stdoutLines = [usageLine] ∧
    (mainRun env argv).2.sent = [] ∧
    (mainRun env argv).2.socketsCreated = 0 := by
  simp [mainRun, h, initWorld]

/-- C4 witness: invocation with no positional arguments. -/
theorem mainRun_wrong_argc_usage_witness :
    (mainRun envOk ["udp_sender.py"]).1 = ProcOutcome.exited 1 ∧
    (mainRun envOk ["udp_sender.py"]).2.stdoutLines = [usageLine] ∧
    (mainRun envOk ["udp_sender.py"]).2.sent = [] ∧
    (mainRun envOk ["udp_sender.py"]).2.socketsCreated = 0 :=
  mainRun_wrong_argc_usage envOk ["udp_sender.py"] (by decide)

/-- C6: Whenever `send_udp` returns `True`, exactly one datagram was
appended to the transcript, addressed to the given host at the parsed
port, and its payload is exactly the UTF-8 encoding of the message
argument — no framing, prefix, or suffix. -/
theorem send_udp_success_payload_utf8 (env : Env) (st : WorldState)
    (host port message : String)
    (h : (send_udp env st host port message).1 = PyResult.ret true) :
    ∃ pt : Int, pyIntParse port = some pt ∧
      (send_udp env st host port message).2.sent =
        st.sent ++ [⟨host, pt, utf8Encode message⟩] := by
  cases hc : env.createRaises with
  | some e =>
    rw [send_udp_create_fail env st host port message e hc] at h
    simp at h
  | none =>
    cases hp : pyIntParse port with
    | none =>
      rw [send_udp_parse_fail env st host port message hc hp] at h
      simp at h
    | some pt =>
      by_cases hr : pt < 0 ∨ 65535 < pt
      · rw [send_udp_range_fail env st host port message pt hc hp hr] at h
        simp at h
      · cases hs : env.sendRaises host pt (utf8Encode message) with
        | some e =>
          rw [send_udp_send_fail env st host port message pt e hc hp hr hs] at h
          simp at h
        | none =>
          exact ⟨pt, rfl, by
            rw [send_udp_send_ok env st host port message pt hc hp hr hs]⟩

/-- C6 witness: a successful concrete send of `"hi"`. -/
theorem send_udp_success_payload_utf8_witness :
    ∃ pt : Int, pyIntParse "9999" = some pt ∧
      (send_udp envOk initWorld "127.0.0.1" "9999" "hi").2.sent =
        initWorld.sent ++ [⟨"127.0.0.1", pt, utf8Encode "hi"⟩] :=
  send_udp_success_payload_utf8 envOk initWorld "127.0.0.1" "9999" "hi" rfl

/-- C7: For every destination whose port string parses to an in-range
port and for every environment in which creation and the send succeed,
calling `send_udp` with the empty message returns `True` and transmits a
datagram with an empty payload (UTF-8 of `""` is empty). -/
theorem send_udp_empty_message_succeeds (env : Env) (st : WorldState)
    (host port : String) (pt : Int)
    (hc : env.createRaises = none) (hp : pyIntParse port = some pt)
    (hlo : 0 ≤ pt) (hhi : pt ≤ 65535)
    (hs : env.sendRaises host pt [] = none) :
    (send_udp env st host port "").1 = PyResult.ret true ∧
    (send_udp env st host port "").2.sent = st.sent ++ [⟨host, pt, []⟩] := by
  have hr : ¬ (pt < 0 ∨ 65535 < pt) := by omega
  have hs' : env.sendRaises host pt (utf8Encode "") = none := hs
  rw [send_udp_send_ok env st host port "" pt hc hp hr hs']
  exact ⟨rfl, rfl⟩

/-- C7 witness: empty message to 127.0.0.1:9999. -/
theorem send_udp_empty_message_succeeds_witness :
    (send_udp envOk initWorld "127.0.0.1" "9999" "").1 = PyResult.ret true ∧
    (send_udp envOk initWorld "127.0.0.1" "9999" "").2.sent =
      initWorld.sent ++ [⟨"127.0.0.1", 9999, []⟩] :=
  send_udp_empty_message_succeeds envOk initWorld "127.0.0.1" "9999" 9999
    rfl rfl (by decide) (by decide) rfl

/-- C10: For every port string that parses to an integer outside
`[0, 65535]`, and every environment in which creation succeeds, `send_udp`
does not raise: the `OverflowError` from the send call is caught, a
diagnostic is appended to the error stream, and `send_udp` returns
`False`. -/
theorem send_udp_out_of_range_port_caught (env : Env) (st : WorldState)
    (host port message : String) (pt : Int)
    (hc : env.createRaises = none) (hp : pyIntParse port = some pt)
    (hout : pt < 0 ∨ 65535 < pt) :
    (send_udp env st host port message).1 = PyResult.ret false ∧
    (send_udp env st host port message).2.stderrLines =
      st.stderrLines ++ ["Error: getsockaddrarg: port must be 0-65535"] := by
  rw [send_udp_range_fail env st host port message pt hc hp hout]
  exact ⟨rfl, rfl⟩

/-- C10 witness: the out-of-range port string `"70000"`. -/
theorem send_udp_out_of_range_port_caught_witness :
    (send_udp envOk initWorld "127.0.0.1" "70000" "hi").1 = PyResult.ret false ∧
    (send_udp envOk initWorld "127.0.0.1" "70000" "hi").2.stderrLines =
      initWorld.stderrLines ++ ["Error: getsockaddrarg: port must be 0-65535"] :=
  send_udp_out_of_range_port_caught envOk initWorld "127.0.0.1" "70000" "hi" 70000
    rfl rfl (Or.inr (by decide))

/-- A list never equals itself with one more element appended. -/
theorem ne_append_singleton {α : Type} (l : List α) (d : α) :
    ¬ (l = l ++ [d]) := by
  intro h
  have hl := congrArg List.length h
  simp at hl

/-- C1 counterexample: in an environment where `socket.socket(...)` itself
raises (here: file-descriptor exhaustion), the exception propagates out of
`send_udp` instead of being caught and converted into `False` — socket
creation happens on the line before the `try:` block. -/
theorem send_udp_creation_exception_escapes :
    (send_udp envCreateFail initWorld "127.0.0.1" "9999" "hi").1 =
      PyResult.raise (PyExc.oserror "[Errno 24] Too many open files") ∧
    (send_udp envCreateFail initWorld "127.0.0.1" "9999" "hi").1 ≠
      PyResult.ret false := ⟨rfl, by decide⟩

/-- C1 (amended): provided socket creation succeeds, any exception raised
during port parsing, address resolution, or the send attempt is caught,
logged to the error stream as an `Error:` line, and converted into a
`False` return value, and on success no error line is written; no
exception propagates out of the `try` block.  (An exception raised by
socket creation itself, which precedes the `try:` block, propagates to the
caller — see the counterexample.) -/
theorem send_udp_try_exceptions_caught (env : Env) (st : WorldState)
    (host port message : String) (hc : env.createRaises = none) :
    ((send_udp env st host port message).1 = PyResult.ret true ∧
      (send_udp env st host port message).2.stderrLines = st.stderrLines) ∨
    ((send_udp env st host port message).1 = PyResult.ret false ∧
      ∃ msg, (send_udp env st host port message).2.stderrLines =
        st.stderrLines ++ ["Error: " ++ msg]) := by
  cases hp : pyIntParse port with
  | none =>
    right
    rw [send_udp_parse_fail env st host port message hc hp]
    exact ⟨rfl, "invalid literal for int() with base 10: '" ++ port ++ "'", rfl⟩
  | some pt =>
    by_cases hr : pt < 0 ∨ 65535 < pt
    · right
      rw [send_udp_range_fail env st host port message pt hc hp hr]
      exact ⟨rfl, "getsockaddrarg: port must be 0-65535", rfl⟩
    · cases hs : env.sendRaises host pt (utf8Encode message) with
      | some e =>
        right
        rw [send_udp_send_fail env st host port message pt e hc hp hr hs]
        exact ⟨rfl, excMsg e, rfl⟩
      | none =>
        left
        rw [send_udp_send_ok env st host port message pt hc hp hr hs]
        exact ⟨rfl, rfl⟩

/-- C1 witness: an unresolvable host; the error is caught and logged. -/
theorem send_udp_try_exceptions_caught_witness :
    ((send_udp envSendFail initWorld "127.0.0.1" "9999" "hi").1 = PyResult.ret true ∧
      (send_udp envSendFail initWorld "127.0.0.1" "9999" "hi").2.stderrLines =
        initWorld.stderrLines) ∨
    ((send_udp envSendFail initWorld "127.0.0.1" "9999" "hi").1 = PyResult.ret false ∧
      ∃ msg, (send_udp envSendFail initWorld "127.0.0.1" "9999" "hi").2.stderrLines =
        initWorld.stderrLines ++ ["Error: " ++ msg]) :=
  send_udp_try_exceptions_caught envSendFail initWorld "127.0.0.1" "9999" "hi" rfl

/-- C2 counterexample: when `socket.socket` raises, the process terminates
with exit status 1 although the argument count is correct and `send_udp`
returned neither `False` nor `True` — a third status-1 case beyond the two
the claim allows. -/
theorem mainRun_third_exit_one_case :
    exitStatus (mainRun envCreateFail ["udp_sender.py", "127.0.0.1", "9999", "hi"]).1 = 1 ∧
    (["udp_sender.py", "127.0.0.1", "9999", "hi"] : List String).length = 4 ∧
    (send_udp envCreateFail initWorld "127.0.0.1" "9999" "hi").1 ≠ PyResult.ret false ∧
    (send_udp envCreateFail initWorld "127.0.0.1" "9999" "hi").1 ≠ PyResult.ret true :=
  ⟨rfl, rfl, by decide, by decide⟩

/-- C2 (amended): the process exits with status 0 iff the argument count
is correct and `send_udp` returned success; it terminates with status 1 in
exactly three cases: wrong positional-argument count, failed send
(`send_udp` returned `False`), or an exception that propagated out of
`send_udp` (socket-creation failure), on which the interpreter exits with
status 1. -/
theorem mainRun_exit_code_characterization (env : Env) (argv : List String) :
    (exitStatus (mainRun env argv).1 = 0 ↔
      (argv.length = 4 ∧
        (send_udp env initWorld (argv.getD 1 "") (argv.getD 2 "") (argv.getD 3 "")).1 =
          PyResult.ret true)) ∧
    (exitStatus (mainRun env argv).1 = 1 ↔
      (argv.length ≠ 4 ∨
        (send_udp env initWorld (argv.getD 1 "") (argv.getD 2 "") (argv.getD 3 "")).1 =
          PyResult.ret false ∨
        ∃ e, (send_udp env initWorld (argv.getD 1 "") (argv.getD 2 "") (argv.getD 3 "")).1 =
          PyResult.raise e)) := by
  by_cases h : argv.length = 4
  · rcases hres : send_udp env initWorld (argv.getD 1 "") (argv.getD 2 "") (argv.getD 3 "")
      with ⟨r, st⟩
    have hcond : ¬ (argv.length ≠ 4) := fun hn => hn h
    unfold mainRun
    rw [if_neg hcond, hres]
    cases r with
    | ret b => cases b <;> simp [exitStatus, h]
    | raise e => simp [exitStatus, h]
  · simp [mainRun, h, exitStatus]

/-- The return value of `send_udp` does not depend on the incoming world
state: `send_udp` reads no program state, only its arguments and the
environment. -/
theorem send_udp_fst_state_irrel (env : Env) (st st' : WorldState)
    (host port message : String) :
    (send_udp env st host port message).1 = (send_udp env st' host port message).1 := by
  cases hc : env.createRaises with
  | some e =>
    rw [send_udp_create_fail env st host port message e hc,
        send_udp_create_fail env st' host port message e hc]
  | none =>
    cases hp : pyIntParse port with
    | none =>
      rw [send_udp_parse_fail env st host port message hc hp,
          send_udp_parse_fail env st' host port message hc hp]
    | some pt =>
      by_cases hr : pt < 0 ∨ 65535 < pt
      · rw [send_udp_range_fail env st host port message pt hc hp hr,
            send_udp_range_fail env st' host port message pt hc hp hr]
      · cases hs : env.sendRaises host pt (utf8Encode message) with
        | some e =>
          rw [send_udp_send_fail env st host port message pt e hc hp hr hs,
              send_udp_send_fail env st' host port message pt e hc hp hr hs]
        | none =>
          rw [send_udp_send_ok env st host port message pt hc hp hr hs,
              send_udp_send_ok env st' host port message pt hc hp hr hs]

/-- C2 witness: a concrete failed send terminates the process with
status 1. -/
theorem mainRun_exit_code_characterization_witness :
    exitStatus (mainRun envSendFail ["udp_sender.py", "127.0.0.1", "9999", "hi"]).1 = 1 :=
  ((mainRun_exit_code_characterization envSendFail
    ["udp_sender.py", "127.0.0.1", "9999", "hi"]).2).mpr (Or.inr (Or.inl rfl))

/-- C5 witness: a concrete successful send leaves no socket open. -/
theorem send_udp_socket_released_witness :
    (send_udp envOk initWorld "127.0.0.1" "9999" "hi").2.socketsOpen =
      initWorld.socketsOpen :=
  send_udp_socket_released envOk initWorld "127.0.0.1" "9999" "hi"

/-- C8: Invoking `send_udp` twice with the same (host, port, message) in
the same environment: the second invocation returns exactly what the first
did — the outcome is independent of the incoming world state, so no state
carries over — and whenever the first invocation transmitted a datagram,
the pair of invocations appends two independent datagrams with identical
payload bytes. -/
theorem send_udp_repeat_identical (env : Env) (st : WorldState)
    (host port message : String) :
    (send_udp env (send_udp env st host port message).2 host port message).1 =
      (send_udp env st host port message).1 ∧
    (∀ d : Datagram,
      (send_udp env st host port message).2.sent = st.sent ++ [d] →
      (send_udp env (send_udp env st host port message).2 host port message).2.sent =
        st.sent ++ [d, d]) := by
  constructor
  · exact send_udp_fst_state_irrel env (send_udp env st host port message).2 st
      host port message
  · intro d hd
    cases hc : env.createRaises with
    | some e =>
      rw [send_udp_create_fail env st host port message e hc] at hd
      exact absurd hd (ne_append_singleton st.sent d)
    | none =>
      cases hp : pyIntParse port with
      | none =>
        rw [send_udp_parse_fail env st host port message hc hp] at hd
        exact absurd hd (ne_append_singleton st.sent d)
      | some pt =>
        by_cases hr : pt < 0 ∨ 65535 < pt
        · rw [send_udp_range_fail env st host port message pt hc hp hr] at hd
          exact absurd hd (ne_append_singleton st.sent d)
        · cases hs : env.sendRaises host pt (utf8Encode message) with
          | some e =>
            rw [send_udp_send_fail env st host port message pt e hc hp hr hs] at hd
            exact absurd hd (ne_append_singleton st.sent d)
          | none =>
            have h1 := send_udp_send_ok env st host port message pt hc hp hr hs
            rw [h1] at hd
            have hdg : (⟨host, pt, utf8Encode message⟩ : Datagram) = d := by
              have h' : st.sent ++ [(⟨host, pt, utf8Encode message⟩ : Datagram)] =
                  st.sent ++ [d] := hd
              have h'' := List.append_cancel_left h'
              simpa using h''
            have h2 := send_udp_send_ok env
              ({ st with socketsCreated := st.socketsCreated + 1,
                         sent := st.sent ++ [⟨host, pt, utf8Encode message⟩] })
              host port message pt hc hp hr hs
            simp only [h1]
            rw [h2]
            simp [← hdg, List.append_assoc]

/-- C8 witness: sending `"hi"` to 127.0.0.1:9999 twice appends two
identical datagrams. -/
theorem send_udp_repeat_identical_witness :
    (send_udp envOk (send_udp envOk initWorld "127.0.0.1" "9999" "hi").2
        "127.0.0.1" "9999" "hi").2.sent =
      initWorld.sent ++ [⟨"127.0.0.1", 9999, utf8Encode "hi"⟩,
        ⟨"127.0.0.1", 9999, utf8Encode "hi"⟩] :=
  (send_udp_repeat_identical envOk initWorld "127.0.0.1" "9999" "hi").2
    ⟨"127.0.0.1", 9999, utf8Encode "hi"⟩ rfl

/-- C9: Diagnostic output is routed by error kind: a wrong argument count
prints exactly the usage line to standard output and nothing to the error
stream; a failed send (exit code 1 with the correct argument count) prints
nothing to standard output and exactly one line of the form
`Error: <details>` to the error stream; a successful send emits no
diagnostic text on either stream. -/
theorem mainRun_diagnostic_routing (env : Env) (argv : List String) :
    (argv.length ≠ 4 →
      (mainRun env argv).2.stdoutLines = [usageLine] ∧
      (mainRun env argv).2.stderrLines = []) ∧
    (argv.length = 4 → (mainRun env argv).1 = ProcOutcome.exited 1 →
      (mainRun env argv).2.stdoutLines = [] ∧
      ∃ s, (mainRun env argv).2.stderrLines = ["Error: " ++ s]) ∧
    (argv.length = 4 → (mainRun env argv).1 = ProcOutcome.exited 0 →
      (mainRun env argv).2.stdoutLines = [] ∧
      (mainRun env argv).2.stderrLines = []) := by
  by_cases h : argv.length = 4
  case neg =>
    refine ⟨fun _ => ?_, fun h4 => absurd h4 h, fun h4 => absurd h4 h⟩
    constructor <;> simp [mainRun, h, initWorld]
  case pos =>
    have hcond : ¬ (argv.length ≠ 4) := fun hn => hn h
    cases hc : env.createRaises with
    | some e =>
      have hm : mainRun env argv = (ProcOutcome.crashed e,
          { initWorld with stderrLines := initWorld.stderrLines ++
              ["Traceback (most recent call last): " ++ excMsg e] }) := by
        unfold mainRun
        rw [if_neg hcond, send_udp_create_fail env initWorld (argv.getD 1 "")
          (argv.getD 2 "") (argv.getD 3 "") e hc]
      refine ⟨fun hn => absurd h hn, fun _ h1 => ?_, fun _ h0 => ?_⟩
      · rw [hm] at h1; simp at h1
      · rw [hm] at h0; simp at h0
    | none =>
      cases hp : pyIntParse (argv.getD 2 "") with
      | none =>
        have hm : mainRun env argv = (ProcOutcome.exited 1,
            { initWorld with socketsCreated := initWorld.socketsCreated + 1,
                             stderrLines := initWorld.stderrLines ++
                               ["Error: " ++ ("invalid literal for int() with base 10: '" ++
                                 argv.getD 2 "" ++ "'")] }) := by
          unfold mainRun
          rw [if_neg hcond, send_udp_parse_fail env initWorld (argv.getD 1 "")
            (argv.getD 2 "") (argv.getD 3 "") hc hp]
        refine ⟨fun hn => absurd h hn, fun _ _ => ?_, fun _ h0 => ?_⟩
        · rw [hm]
          exact ⟨rfl,
            "invalid literal for int() with base 10: '" ++ argv.getD 2 "" ++ "'", rfl⟩
        · rw [hm] at h0; simp at h0
      | some pt =>
        by_cases hr : pt < 0 ∨ 65535 < pt
        · have hm : mainRun env argv = (ProcOutcome.exited 1,
              { initWorld with socketsCreated := initWorld.socketsCreated + 1,
                               stderrLines := initWorld.stderrLines ++
                                 ["Error: getsockaddrarg: port must be 0-65535"] }) := by
            unfold mainRun
            rw [if_neg hcond, send_udp_range_fail env initWorld (argv.getD 1 "")
              (argv.getD 2 "") (argv.getD 3 "") pt hc hp hr]
          refine ⟨fun hn => absurd h hn, fun _ _ => ?_, fun _ h0 => ?_⟩
          · rw [hm]
            exact ⟨rfl, "getsockaddrarg: port must be 0-65535", rfl⟩
          · rw [hm] at h0; simp at h0
        · cases hs : env.sendRaises (argv.getD 1 "") pt (utf8Encode (argv.getD 3 "")) with
          | some e =>
            have hm : mainRun env argv = (ProcOutcome.exited 1,
                { initWorld with socketsCreated := initWorld.socketsCreated + 1,
                                 stderrLines := initWorld.stderrLines ++
                                   ["Error: " ++ excMsg e] }) := by
              unfold mainRun
              rw [if_neg hcond, send_udp_send_fail env initWorld (argv.getD 1 "")
                (argv.getD 2 "") (argv.getD 3 "") pt e hc hp hr hs]
            refine ⟨fun hn => absurd h hn, fun _ _ => ?_, fun _ h0 => ?_⟩
            · rw [hm]
              exact ⟨rfl, excMsg e, rfl⟩
            · rw [hm] at h0; simp at h0
          | none =>
            have hm : mainRun env argv = (ProcOutcome.exited 0,
                { initWorld with socketsCreated := initWorld.socketsCreated + 1,
                                 sent := initWorld.sent ++
                                   [⟨argv.getD 1 "", pt, utf8Encode (argv.getD 3 "")⟩] }) := by
              unfold mainRun
              rw [if_neg hcond, send_udp_send_ok env initWorld (argv.getD 1 "")
                (argv.getD 2 "") (argv.getD 3 "") pt hc hp hr hs]
            refine ⟨fun hn => absurd h hn, fun _ h1 => ?_, fun _ _ => ?_⟩
            · rw [hm] at h1; simp at h1
            · rw [hm]
              exact ⟨rfl, rfl⟩

/-- C9 witness: a failed send (unresolvable host) with the correct
argument count prints no usage text and exactly one `Error:` line. -/
theorem mainRun_diagnostic_routing_witness :
    (mainRun envSendFail ["udp_sender.py", "127.0.0.1", "9999", "hi"]).2.stdoutLines = [] ∧
    ∃ s, (mainRun envSendFail ["udp_sender.py", "127.0.0.1", "9999", "hi"]).2.stderrLines =
      ["Error: " ++ s] :=
  (mainRun_diagnostic_routing envSendFail
    ["udp_sender.py", "127.0.0.1", "9999", "hi"]).2.1 rfl rfl

example : pyIntParse "9999" = some 9999 := rfl
example : pyIntParse "notaport" = none := rfl
example : pyIntParse "-1" = some (-1) := rfl
example : pyIntParse "70000" = some 70000 := rfl
example : pyIntParse " 42 " = some 42 := rfl
example : utf8Encode "" = [] := rfl
example : utf8Encode "hi" = [104, 105] := rfl
example :
    (send_udp envOk initWorld "127.0.0.1" "9999" "hi").1 = PyResult.ret true := rfl
example :
    (send_udp envOk initWorld "127.0.0.1" "notaport" "hi").1 = PyResult.ret false := rfl
example :
    (send_udp envCreateFail initWorld "127.0.0.1" "9999" "hi").1 =
      PyResult.raise (PyExc.oserror "[Errno 24] Too many open files") := rfl
example :
    exitStatus (mainRun envOk ["udp_sender.py", "127.0.0.1", "9999", "hi"]).1 = 0 := rfl
example :
    exitStatus (mainRun envCreateFail ["udp_sender.py", "127.0.0.1", "9999", "hi"]).1 = 1 := rfl
example :
    (send_udp envOk initWorld "127.0.0.1" "70000" "hi").1 = PyResult.ret false := rfl

end UdpSender
